import Mathlib

set_option maxRecDepth 4000

/-!
# Terms-Analyzer: shallow embedding and verification

A shallow embedding of the core components of the Terms-Analyzer browser
extension, translated from the TypeScript sources:

* `src/src/types/service-worker.d.ts` — `StorageService` (the result cache,
  an IndexedDB object store keyed by `url`);
* `src/src/services/NetworkManager.ts` — the network-status monitor's
  listener registry;
* `src/src/components/LanguageSelector.tsx` — `TermsDetector`, in particular
  `calculateConfidence`;
* `src/src/background/background.ts` — `AIProcessor.processTerms`,
  `AIProcessor.parseAIResponse`, and the `handleAnalysisRequest` message
  handler.

Machine numbers are modelled as `ℚ`/`ℤ`/`ℕ`; JavaScript values flowing through
the tolerant JSON pipeline are modelled by the inductive `Json` type, and the
platform's `JSON.parse` is an arbitrary parameter `jsonParse : String → Option Json`
(`none` models a parse exception).
-/

namespace TermsAnalyzer

/-! ## Result cache (`StorageService`, service-worker.d.ts lines 46–102)

The IndexedDB object store `analyses` is created with `keyPath: 'url'`, so the
physical key is the `url` string alone; `language` is a field of the stored
record, checked on read.  `R` abstracts over the `result: any` payload. -/

structure CachedAnalysis (R : Type) where
  url : String
  content : String
  result : R
  timestamp : ℤ
  language : String
  deriving Repr, DecidableEq

/-- The `analyses` object store: a list of records with pairwise-distinct
`url` keys (IndexedDB `put` overwrites the record with the same key). -/
def Store (R : Type) : Type := List (CachedAnalysis R)

/-- IndexedDB `put` on a store with `keyPath: 'url'`: replaces any record
having the same `url` key. -/
def idbPut {R : Type} (s : Store R) (e : CachedAnalysis R) : Store R :=
  e :: List.filter (fun x => x.url ≠ e.url) s

/-- IndexedDB `get` by primary key. -/
def idbGet {R : Type} (s : Store R) (url : String) : Option (CachedAnalysis R) :=
  List.find? (fun e => e.url = url) s

/-- `StorageService.cacheAnalysis(url, content, result, language)`, with the
call's `Date.now()` passed explicitly as `now`. -/
def cacheAnalysis {R : Type} (s : Store R) (url content : String) (result : R)
    (language : String) (now : ℤ) : Store R :=
  idbPut s { url := url, content := content, result := result,
             timestamp := now, language := language }

/-- The 24-hour TTL in milliseconds (`24 * 60 * 60 * 1000`). -/
def cacheTTL : ℤ := 24 * 60 * 60 * 1000

/-- `StorageService.getCachedAnalysis(url, language)`, with the read-time
`Date.now()` passed explicitly as `now`: returns `none` when no record exists
under the key, when the stored language differs, or when the age exceeds the
24-hour TTL. -/
def getCachedAnalysis {R : Type} (s : Store R) (url language : String)
    (now : ℤ) : Option (CachedAnalysis R) :=
  match idbGet s url with
  | none => none
  | some entry =>
    if entry.language ≠ language then none
    else if now - entry.timestamp > cacheTTL then none
    else some entry

/-! ## Network-status monitor listener registry (NetworkManager.ts lines 46–55)

Callbacks are compared by JavaScript reference identity (`Array.prototype.indexOf`
uses strict equality); references are modelled as natural-number identities. -/

/-- A callback reference identity. -/
abbrev ListenerRef : Type := Nat

/-- `NetworkManager.addListener`: `this.listeners.push(listener)` — an
unconditional append. -/
def addListener (listeners : List ListenerRef) (l : ListenerRef) :
    List ListenerRef :=
  listeners ++ [l]

/-- `NetworkManager.removeListener`: `indexOf` then `splice(index, 1)` —
removes the first occurrence of the exact reference, if present. -/
def removeListener (listeners : List ListenerRef) (l : ListenerRef) :
    List ListenerRef :=
  match List.findIdx? (fun x => x = l) listeners with
  | some i => listeners.eraseIdx i
  | none => listeners

/-! ## JavaScript values and the tolerant response parser
(`AIProcessor.parseAIResponse`, background.ts lines 115–137)

`Json` models the JavaScript values that can flow out of `JSON.parse`,
together with `undef` for the `undefined` produced by accessing a missing
property.  The platform's `JSON.parse` itself is kept abstract: it is a
parameter `jsonParse : String → Option Json` of the parser, `none` standing
for a thrown `SyntaxError`. -/

inductive Json : Type where
  | undefined : Json
  | null : Json
  | bool : Bool → Json
  | num : ℚ → Json
  | str : String → Json
  | arr : List Json → Json
  | obj : List (String × Json) → Json
  deriving Repr

/-- JavaScript property access `v.k`: a field of an object, `undefined`
otherwise (also for a missing field). -/
def Json.getField : Json → String → Json
  | .obj fields, k =>
    match fields.lookup k with
    | some v => v
    | none => .undefined
  | _, _ => .undefined

/-- JavaScript truthiness, deciding `x || y`: `undefined`, `null`, `false`,
`0` and the empty string are falsy; objects and arrays are always truthy. -/
def Json.truthy : Json → Bool
  | .undefined => false
  | .null => false
  | .bool b => b
  | .num q => decide (q ≠ 0)
  | .str s => decide (s ≠ "")
  | .arr _ => true
  | .obj _ => true

/-- `Array.isArray`. -/
def Json.isArr : Json → Bool
  | .arr _ => true
  | _ => false

/-- The element list of an array value (irrelevant elsewhere: the code only
reads it behind an `Array.isArray` guard). -/
def Json.elts : Json → List Json
  | .arr xs => xs
  | _ => []

/-- `['low', 'medium', 'high'].includes(parsed.riskLevel) ? parsed.riskLevel
: 'medium'` — `includes` uses strict equality, so only those exact three
string values pass. -/
def normalizeRiskLevel (v : Json) : String :=
  match v with
  | .str s => if s = "low" ∨ s = "medium" ∨ s = "high" then s else "medium"
  | _ => "medium"

/-- The suffix of `l` ending at (and including) the last `'}'` of `l`
(empty when `l` has no `'}'`): the greedy tail of the regex match. -/
def takeToLastClose (l : List Char) : List Char :=
  (l.reverse.dropWhile (fun c => c ≠ '}')).reverse

/-- `aiResponse.match(/\x7b[\s\S]*\x7d/)` (the braces written here as hex):
the JavaScript regex engine returns the substring running from the first
`'{'` that has some `'}'` after it, through the last `'}'` of the string;
`none` when no such pair exists. -/
def extractMatch : List Char → Option (List Char)
  | [] => none
  | c :: rest =>
    if c = '{' ∧ rest.contains '}' then some (c :: takeToLastClose rest)
    else extractMatch rest

/-- `Omit<AnalysisResult, 'timestamp'>`: what `parseAIResponse` returns.
`summary`, the key points and the red flags keep whatever JavaScript values
the parsed object carried, so they are `Json`; `riskLevel` is a string the
code constrains itself. -/
structure ParsedAnalysis where
  summary : Json
  riskLevel : String
  keyPoints : List Json
  redFlags : List Json
  deriving Repr

/-- The degraded fallback of `parseAIResponse`: first 1000 characters of the
raw text as summary, medium risk, one placeholder key point, no red flags. -/
def fallbackAnalysis (aiResponse : String) : ParsedAnalysis :=
  { summary := .str (aiResponse.take 1000)
    riskLevel := "medium"
    keyPoints := [.str "Analysis completed - see summary for details"]
    redFlags := [] }

/-- `AIProcessor.parseAIResponse`, with the platform `JSON.parse` passed in
as `jsonParse`.  On a successful brace match and decode, each field is
normalized exactly as in the source (`||` defaulting for `summary`, the
`includes` guard for `riskLevel`, `Array.isArray` plus `slice` for the two
lists); on no match or a decode exception the degraded fallback is
returned. -/
def parseAIResponse (jsonParse : String → Option Json)
    (aiResponse : String) : ParsedAnalysis :=
  match extractMatch aiResponse.data with
  | some m =>
    match jsonParse (String.mk m) with
    | some parsed =>
      { summary := if (parsed.getField "summary").truthy
          then parsed.getField "summary" else .str "Analysis completed"
        riskLevel := normalizeRiskLevel (parsed.getField "riskLevel")
        keyPoints := if (parsed.getField "keyPoints").isArr
          then (parsed.getField "keyPoints").elts.take 8
          else [.str "Analysis completed"]
        redFlags := if (parsed.getField "redFlags").isArr
          then (parsed.getField "redFlags").elts.take 5
          else [] }
    | none => fallbackAnalysis aiResponse
  | none => fallbackAnalysis aiResponse

/-! ## Content-detector scoring
(`TermsDetector.calculateConfidence`, LanguageSelector.tsx lines 208–235)

JavaScript numbers are modelled as exact rationals; the weights 0.2/0.1/0.3
below are the source's literals. -/

/-- `pat` occurs at the head of `s`. -/
def startsWithChars : List Char → List Char → Bool
  | _, [] => true
  | [], _ :: _ => false
  | c :: s, p :: ps => c == p && startsWithChars s ps

/-- `pat` occurs somewhere in `s` (as a contiguous run). -/
def containsChars : List Char → List Char → Bool
  | [], pat => startsWithChars [] pat
  | c :: rest, pat => startsWithChars (c :: rest) pat || containsChars rest pat

/-- JavaScript `s.includes(pat)`: contiguous-substring containment. -/
def strIncludes (s pat : String) : Bool :=
  containsChars s.data pat.data

/-- JavaScript `s.toLowerCase()`: character-wise lower-casing. -/
def toLowerCase (s : String) : String :=
  String.mk (s.data.map Char.toLower)

/-- `TermsDetector.termsIndicators` (LanguageSelector.tsx lines 75–78). -/
def termsIndicators : List String :=
  ["terms of service", "terms and conditions", "user agreement",
   "terms of use", "service agreement", "legal terms"]

/-- The fixed legal-language pattern list (LanguageSelector.tsx lines 219–222). -/
def legalPatterns : List String :=
  ["hereby agree", "privacy policy", "liability", "jurisdiction",
   "governing law", "dispute resolution", "termination"]

/-- `termsMatches`: how many of the fixed indicator phrases occur in the
lower-cased text. -/
def termsMatchCount (lowerText : String) : ℕ :=
  (termsIndicators.filter (fun ind => strIncludes lowerText ind)).length

/-- `legalMatches`: how many of the fixed legal-language patterns occur in
the lower-cased text. -/
def legalMatchCount (lowerText : String) : ℕ :=
  (legalPatterns.filter (fun pat => strIncludes lowerText pat)).length

/-- `TermsDetector.calculateConfidence`: 0.2 per indicator phrase found, 0.1
per legal pattern found, +0.1 for length over 1000, +0.1 for length over
5000, −0.3 for length under 500, then `Math.min(confidence, 1.0)` — the
source clamps only from above. -/
def calculateConfidence (text : String) : ℚ :=
  min ((termsMatchCount (toLowerCase text) : ℚ) * (2/10)
    + (legalMatchCount (toLowerCase text) : ℚ) * (1/10)
    + (if text.length > 1000 then (1/10 : ℚ) else 0)
    + (if text.length > 5000 then (1/10 : ℚ) else 0)
    - (if text.length < 500 then (3/10 : ℚ) else 0)) 1

/-- A terms page body: every indicator phrase and every legal pattern,
followed by enough filler to exceed 5000 characters. -/
def sampleTermsText : String :=
  String.mk (("terms of service terms and conditions user agreement " ++
    "terms of use service agreement legal terms hereby agree " ++
    "privacy policy liability jurisdiction governing law " ++
    "dispute resolution termination ").data ++ List.replicate 5000 'a')

/-! ## Analysis orchestrator
(`handleAnalysisRequest` and `AIProcessor.processTerms`, background.ts
lines 151–180 and 21–48)

The embedding records how far a request travels: `localError msg` means the
handler answered `{success: false, error: msg}` without any network
request; `remoteAttempt` means control reached the `fetch` inside
`callGeminiAPI`, i.e. a remote call was issued. -/

inductive HandlerOutcome : Type where
  | localError : String → HandlerOutcome
  | remoteAttempt : HandlerOutcome
  deriving Repr, DecidableEq

/-- The `AIProcessor` constructor's credential test
(`!this.apiKey || this.apiKey.includes('ABC123')`, background.ts line 24):
when true the constructor logs a console error — and does nothing else. -/
def apiKeyWarned (apiKey : String) : Bool :=
  apiKey = "" || strIncludes apiKey "ABC123"

/-- `AIProcessor.processTerms` up to its remote call: the only local gate is
`if (!this.apiKey) throw ...` — the empty credential; any non-empty
credential (placeholder included) flows into `callGeminiAPI`. -/
def processTerms (apiKey termsText language : String) : HandlerOutcome :=
  if apiKey = "" then
    .localError "Extension is not properly configured. Please contact support."
  else
    .remoteAttempt

/-- The background `handleAnalysisRequest` handler: rejects empty or
short (< 100 characters) content locally, otherwise calls
`aiProcessor.processTerms`.  The `networkOnline` flag maintained by
`NetworkManager` is threaded in to record the process state available to
the handler — the source consults no network state anywhere on this path. -/
def handleAnalysisRequest (networkOnline : Bool) (apiKey : String)
    (content language : String) : HandlerOutcome :=
  if content = "" ∨ content.length < 100 then
    .localError "Terms content is too short or empty"
  else
    processTerms apiKey content language

end TermsAnalyzer

namespace TermsAnalyzer

/-! ## Claim C6 — cache round-trip -/

/-- C6: `put(k, c, r, lang)` followed by `get(k, lang)` within the 24-hour TTL
window returns `r` unchanged; `get` after the entry's age exceeds the TTL
returns none; `get` under any other language returns none. -/
theorem cache_roundtrip {R : Type} (s : Store R) (k c : String) (r : R)
    (lang lang' : String) (t t' : ℤ) :
    (t' - t ≤ cacheTTL →
      (getCachedAnalysis (cacheAnalysis s k c r lang t) k lang t').map
        (fun e => e.result) = some r) ∧
    (t' - t > cacheTTL →
      getCachedAnalysis (cacheAnalysis s k c r lang t) k lang t' = none) ∧
    (lang' ≠ lang →
      getCachedAnalysis (cacheAnalysis s k c r lang t) k lang' t' = none) := by
  have hget : idbGet (cacheAnalysis s k c r lang t) k =
      some { url := k, content := c, result := r, timestamp := t,
             language := lang } := by
    simp [idbGet, cacheAnalysis, idbPut, List.find?]
  refine ⟨?_, ?_, ?_⟩
  · intro h
    simp [getCachedAnalysis, hget, not_lt.mpr h]
  · intro h
    simp [getCachedAnalysis, hget, h]
  · intro h
    simp [getCachedAnalysis, hget, Ne.symm h]

/-- Concrete instance of `cache_roundtrip`: all three hypotheses discharged at
explicit inputs. -/
theorem cache_roundtrip_witness :
    ((getCachedAnalysis
        (cacheAnalysis ([] : Store ℕ) "https://example.com" "content" 7 "en" 0)
        "https://example.com" "en" 1000).map (fun e => e.result) = some 7) ∧
    (getCachedAnalysis
        (cacheAnalysis ([] : Store ℕ) "https://example.com" "content" 7 "en" 0)
        "https://example.com" "en" 86400001 = none) ∧
    (getCachedAnalysis
        (cacheAnalysis ([] : Store ℕ) "https://example.com" "content" 7 "en" 0)
        "https://example.com" "ta" 1000 = none) :=
  ⟨(cache_roundtrip [] "https://example.com" "content" 7 "en" "ta" 0 1000).1
      (by decide),
   (cache_roundtrip [] "https://example.com" "content" 7 "en" "ta" 0
      86400001).2.1 (by decide),
   (cache_roundtrip [] "https://example.com" "content" 7 "en" "ta" 0
      1000).2.2 (by decide)⟩

/-! ## Claim C2 — per-(pageKey, language) cache entries

The object store is created with `keyPath: 'url'` alone, so a `put` under a
second language for the same `pageKey` physically overwrites the record stored
under the first language. -/

/-- C2 counterexample: after `put("u", "c1", 1, "en")` then
`put("u", "c2", 2, "ta")`, a `get("u", "en")` at time 0 (well within TTL)
returns `none`, not the first result — the claim fails at this input. -/
theorem cache_language_overwrite_cex :
    getCachedAnalysis
      (cacheAnalysis (cacheAnalysis ([] : Store ℕ) "u" "c1" 1 "en" 0)
        "u" "c2" 2 "ta" 0) "u" "en" 0 = none := by
  decide

/-- C2 amended: the store is keyed by `pageKey` alone, so a `put` under a
different language for the same `pageKey` overwrites the earlier entry: a
subsequent `get(k, l1)` returns none, while `get(k, l2)` within TTL returns
the second result. -/
theorem cache_language_overwrite {R : Type} (s : Store R) (k c₁ c₂ : String)
    (r₁ r₂ : R) (l₁ l₂ : String) (t₁ t₂ t' : ℤ) (h : l₁ ≠ l₂) :
    getCachedAnalysis
      (cacheAnalysis (cacheAnalysis s k c₁ r₁ l₁ t₁) k c₂ r₂ l₂ t₂)
      k l₁ t' = none ∧
    (t' - t₂ ≤ cacheTTL →
      (getCachedAnalysis
        (cacheAnalysis (cacheAnalysis s k c₁ r₁ l₁ t₁) k c₂ r₂ l₂ t₂)
        k l₂ t').map (fun e => e.result) = some r₂) := by
  have hget : idbGet
      (cacheAnalysis (cacheAnalysis s k c₁ r₁ l₁ t₁) k c₂ r₂ l₂ t₂) k =
      some { url := k, content := c₂, result := r₂, timestamp := t₂,
             language := l₂ } := by
    simp [idbGet, cacheAnalysis, idbPut, List.find?]
  constructor
  · simp [getCachedAnalysis, hget, Ne.symm h]
  · intro hle
    simp [getCachedAnalysis, hget, not_lt.mpr hle]

/-- Concrete instance of `cache_language_overwrite` at explicit inputs. -/
theorem cache_language_overwrite_witness :
    getCachedAnalysis
      (cacheAnalysis (cacheAnalysis ([] : Store ℕ) "u" "c1" 1 "en" 0)
        "u" "c2" 2 "ta" 5) "u" "en" 10 = none ∧
    (getCachedAnalysis
      (cacheAnalysis (cacheAnalysis ([] : Store ℕ) "u" "c1" 1 "en" 0)
        "u" "c2" 2 "ta" 5) "u" "ta" 10).map (fun e => e.result) = some 2 :=
  ⟨(cache_language_overwrite [] "u" "c1" "c2" 1 2 "en" "ta" 0 5 10
      (by decide)).1,
   (cache_language_overwrite [] "u" "c1" "c2" 1 2 "en" "ta" 0 5 10
      (by decide)).2 (by decide)⟩

/-! ## Claim C9 — listener registration is not idempotent

`addListener` is an unconditional `push`; registering the same reference twice
accumulates two entries, and one `removeListener` removes only the first
occurrence. -/

/-- `removeListener` is exactly removal of the first occurrence. -/
theorem removeListener_eq_erase (s : List ListenerRef) (l : ListenerRef) :
    removeListener s l = s.erase l := by
  induction s with
  | nil => rfl
  | cons a s ih =>
    by_cases h : a = l
    · subst h
      simp [removeListener, List.findIdx?_cons, List.erase_cons_head]
    · rw [List.erase_cons_tail (by simp [h])]
      simp only [removeListener, List.findIdx?_cons, decide_eq_true_eq,
        if_neg h] at *
      rcases hf : List.findIdx? (fun x => decide (x = l)) s with _ | i <;>
        simp [hf] at ih ⊢ <;> simpa [List.eraseIdx] using ih

/-- C9 counterexample: adding the same listener reference twice to the empty
registry yields `[0, 0]`, not the single-registration state `[0]`, and a
single `removeListener` afterwards leaves `[0]` rather than removing the
registration entirely. -/
theorem addListener_not_idempotent_cex :
    addListener (addListener [] 0) 0 ≠ addListener [] 0 ∧
    removeListener (addListener (addListener [] 0) 0) 0 ≠ [] := by
  constructor <;> decide

/-- C9 amended: `addListener` appends unconditionally, so duplicate
registrations of the same reference accumulate (`add l; add l` extends the
registry by `[l, l]`), and a single `removeListener l` removes exactly one
occurrence — after adding `l` twice, one remove leaves the count of `l` one
above its initial value. -/
theorem addListener_accumulates (s : List ListenerRef) (l : ListenerRef) :
    addListener (addListener s l) l = s ++ [l, l] ∧
    (removeListener (addListener (addListener s l) l) l).count l =
      s.count l + 1 := by
  refine ⟨by simp [addListener], ?_⟩
  rw [removeListener_eq_erase, List.count_erase_self]
  simp [addListener, List.count_append]

/-! ## Claim C5 — parser output invariants -/

/-- C5: for every `JSON.parse` behavior and every raw input string, the
record produced by `parseAIResponse` has a `riskLevel` that is one of
`low`/`medium`/`high` (`medium` whenever the source field is absent or not
exactly one of those tokens), at most 8 key points, and at most 5 red
flags. -/
theorem parse_invariants (jp : String → Option Json) (raw : String) :
    ((parseAIResponse jp raw).riskLevel = "low" ∨
      (parseAIResponse jp raw).riskLevel = "medium" ∨
      (parseAIResponse jp raw).riskLevel = "high") ∧
    (parseAIResponse jp raw).keyPoints.length ≤ 8 ∧
    (parseAIResponse jp raw).redFlags.length ≤ 5 := by
  rcases hx : extractMatch raw.data with _ | m
  · simp [parseAIResponse, hx, fallbackAnalysis]
  · rcases hj : jp (String.mk m) with _ | parsed
    · simp [parseAIResponse, hx, hj, fallbackAnalysis]
    · refine ⟨?_, ?_, ?_⟩
      · rcases hr : parsed.getField "riskLevel" with _ | _ | b | q | s | xs | fs <;>
          simp [parseAIResponse, hx, hj, normalizeRiskLevel, hr]
        split <;> tauto
      · simp only [parseAIResponse, hx, hj]
        split <;> simp [List.length_take]
      · simp only [parseAIResponse, hx, hj]
        split <;> simp [List.length_take]

/-! ## Claim C7 — fallback on inputs with no brace match -/

/-- C7: whenever the raw response admits no `\x7b...\x7d` brace match, the
parser (for any `JSON.parse` behavior) returns exactly the degraded
fallback: summary is the first 1000 characters of the raw text, risk level
`medium`, one placeholder key point, and no red flags — and, being a total
function, it never raises. -/
theorem parse_no_brace_fallback (jp : String → Option Json) (raw : String)
    (h : extractMatch raw.data = none) :
    parseAIResponse jp raw =
      { summary := .str (raw.take 1000)
        riskLevel := "medium"
        keyPoints := [.str "Analysis completed - see summary for details"]
        redFlags := [] } := by
  simp [parseAIResponse, h, fallbackAnalysis]

/-- Concrete instance of `parse_no_brace_fallback` on a brace-free input. -/
theorem parse_no_brace_fallback_witness :
    extractMatch "no braces here".data = none ∧
    parseAIResponse (fun _ => none) "no braces here" =
      { summary := .str ("no braces here".take 1000)
        riskLevel := "medium"
        keyPoints := [.str "Analysis completed - see summary for details"]
        redFlags := [] } :=
  ⟨by decide, parse_no_brace_fallback (fun _ => none) "no braces here"
      (by decide)⟩

/-! ## Claim C10 — empty-string summary is replaced by the placeholder -/

/-- C10: when the extracted JSON object carries a `summary` field equal to
the empty string, the parser replaces it with the placeholder
`Analysis completed` — the very same summary as when the field is absent
(`undefined`), because the defaulting is decided by JavaScript falsiness
(`parsed.summary || ...`), not by field presence. -/
theorem summary_empty_string_defaults (jp jp₂ : String → Option Json)
    (raw raw₂ : String) (m m₂ : List Char) (parsed parsed₂ : Json)
    (h1 : extractMatch raw.data = some m)
    (h2 : jp (String.mk m) = some parsed)
    (h3 : parsed.getField "summary" = Json.str "")
    (h4 : extractMatch raw₂.data = some m₂)
    (h5 : jp₂ (String.mk m₂) = some parsed₂)
    (h6 : parsed₂.getField "summary" = Json.undefined) :
    (parseAIResponse jp raw).summary = Json.str "Analysis completed" ∧
    (parseAIResponse jp raw).summary = (parseAIResponse jp₂ raw₂).summary := by
  have e1 : (parseAIResponse jp raw).summary = Json.str "Analysis completed" := by
    simp only [parseAIResponse, h1]
    simp only [h2]
    simp [h3, Json.truthy]
  have e2 : (parseAIResponse jp₂ raw₂).summary = Json.str "Analysis completed" := by
    simp only [parseAIResponse, h4]
    simp only [h5]
    simp [h6, Json.truthy]
  exact ⟨e1, e1.trans e2.symm⟩

/-- Concrete instance of `summary_empty_string_defaults`: a response whose
extracted object has `summary: ""` gets the placeholder, matching the
response whose object has no summary field at all. -/
theorem summary_empty_string_defaults_witness :
    (parseAIResponse (fun _ => some (Json.obj [("summary", Json.str "")]))
        "\x7b\x7d").summary = Json.str "Analysis completed" ∧
    (parseAIResponse (fun _ => some (Json.obj [("summary", Json.str "")]))
        "\x7b\x7d").summary =
      (parseAIResponse (fun _ => some (Json.obj [])) "\x7b\x7d").summary :=
  summary_empty_string_defaults
    (fun _ => some (Json.obj [("summary", Json.str "")]))
    (fun _ => some (Json.obj [])) "\x7b\x7d" "\x7b\x7d"
    ['{', '}'] ['{', '}']
    (Json.obj [("summary", Json.str "")]) (Json.obj [])
    (by decide) rfl rfl (by decide) rfl rfl

/-! ## Claim C4 — range of the confidence score -/

/-- C4 counterexample: a 200-character text with no indicator phrase and no
legal pattern (long enough that `analyzeElement` does submit it to the
scorer) receives confidence −0.3 — the score is negative, so it does not lie
in [0, 1]. -/
theorem confidence_negative_cex :
    calculateConfidence (String.mk (List.replicate 200 'x')) < 0 := by
  have ht : termsMatchCount (toLowerCase (String.mk (List.replicate 200 'x'))) = 0 := by
    decide
  have hl : legalMatchCount (toLowerCase (String.mk (List.replicate 200 'x'))) = 0 := by
    decide
  have hlen : (String.mk (List.replicate 200 'x')).length = 200 := by
    decide
  unfold calculateConfidence
  rw [ht, hl, hlen]
  norm_num [min_def]

/-- C4 amended: the source clamps only from above (`Math.min(confidence,
1.0)`), so the score lies in [−0.3, 1]: it never exceeds 1, but it can be as
low as −0.3 (the short-text penalty with no matches), not 0. -/
theorem confidence_range (text : String) :
    -(3/10 : ℚ) ≤ calculateConfidence text ∧ calculateConfidence text ≤ 1 := by
  unfold calculateConfidence
  constructor
  · apply le_min _ (by norm_num)
    have h1 : (0 : ℚ) ≤ (termsMatchCount (toLowerCase text) : ℚ) * (2/10) := by
      positivity
    have h2 : (0 : ℚ) ≤ (legalMatchCount (toLowerCase text) : ℚ) * (1/10) := by
      positivity
    have h3 : (0 : ℚ) ≤ (if text.length > 1000 then (1/10 : ℚ) else 0) := by
      split <;> norm_num
    have h4 : (0 : ℚ) ≤ (if text.length > 5000 then (1/10 : ℚ) else 0) := by
      split <;> norm_num
    have h5 : (if text.length < 500 then (3/10 : ℚ) else 0) ≤ 3/10 := by
      split <;> norm_num
    linarith
  · exact min_le_right _ _

/-! ## Claim C8 — rich long texts clear the acceptance threshold -/

/-- C8: any text containing at least 4 distinct indicator phrases and at
least 3 distinct legal patterns, with length over 5000, scores at least 0.6
and strictly clears the `> 0.6` acceptance threshold (the raw sum is at
least 1.3, so the clamped score is exactly 1). -/
theorem confidence_clears_threshold (text : String)
    (hterms : 4 ≤ termsMatchCount (toLowerCase text))
    (hlegal : 3 ≤ legalMatchCount (toLowerCase text))
    (hlen : 5000 < text.length) :
    (6/10 : ℚ) ≤ calculateConfidence text ∧
    (6/10 : ℚ) < calculateConfidence text := by
  have h1000 : text.length > 1000 := by omega
  have hnot : ¬ text.length < 500 := by omega
  have hq4 : (4 : ℚ) ≤ (termsMatchCount (toLowerCase text) : ℚ) := by
    exact_mod_cast hterms
  have hq3 : (3 : ℚ) ≤ (legalMatchCount (toLowerCase text) : ℚ) := by
    exact_mod_cast hlegal
  have hone : calculateConfidence text = 1 := by
    unfold calculateConfidence
    rw [if_pos h1000, if_pos hlen, if_neg hnot]
    apply min_eq_right
    linarith
  rw [hone]
  norm_num

/-- `sampleTermsText` exceeds 5000 characters: its filler alone has 5000. -/
theorem sampleTermsText_long : 5000 < sampleTermsText.length := by
  show 5000 < (("terms of service terms and conditions user agreement " ++
    "terms of use service agreement legal terms hereby agree " ++
    "privacy policy liability jurisdiction governing law " ++
    "dispute resolution termination ").data ++
      List.replicate 5000 'a').length
  rw [List.length_append, List.length_replicate]
  have h0 : 0 < ("terms of service terms and conditions user agreement " ++
    "terms of use service agreement legal terms hereby agree " ++
    "privacy policy liability jurisdiction governing law " ++
    "dispute resolution termination ").data.length := by decide
  omega

/-- Concrete instance of `confidence_clears_threshold` on `sampleTermsText`,
all three hypotheses discharged at this explicit input. -/
theorem confidence_clears_threshold_witness :
    4 ≤ termsMatchCount (toLowerCase sampleTermsText) ∧
    3 ≤ legalMatchCount (toLowerCase sampleTermsText) ∧
    5000 < sampleTermsText.length ∧
    (6/10 : ℚ) < calculateConfidence sampleTermsText :=
  ⟨by decide, by decide, sampleTermsText_long,
   (confidence_clears_threshold sampleTermsText (by decide) (by decide)
      sampleTermsText_long).2⟩

/-! ## Claim C1 — no offline guard in the analysis handler -/

/-- C1 counterexample: with the network monitor reporting unreachable
(`networkOnline = false`), a well-formed request (100-character content,
non-empty credential) still reaches the remote call — the handler does not
fail with an offline error, it issues the fetch. -/
theorem offline_guard_cex :
    handleAnalysisRequest false "real-key"
      (String.mk (List.replicate 100 'a')) "en" =
      HandlerOutcome.remoteAttempt := by
  decide

/-- C1 amended: `handleAnalysisRequest` consults no network state at all —
its outcome is identical under reachable and unreachable network — and for
content of at least 100 characters with a non-empty credential it attempts
the remote call even while the monitor reports unreachable.  (The only
offline guard in the sources sits in the popup's detection flow, not in the
background analysis handler.) -/
theorem offline_no_guard (online₁ online₂ : Bool)
    (apiKey content language : String)
    (hne : content ≠ "") (hlen : 100 ≤ content.length)
    (hkey : apiKey ≠ "") :
    handleAnalysisRequest online₁ apiKey content language =
      handleAnalysisRequest online₂ apiKey content language ∧
    handleAnalysisRequest false apiKey content language =
      HandlerOutcome.remoteAttempt := by
  refine ⟨rfl, ?_⟩
  have hcond : ¬ (content = "" ∨ content.length < 100) := by
    push_neg
    exact ⟨hne, by omega⟩
  simp only [handleAnalysisRequest, if_neg hcond, processTerms, if_neg hkey]

/-- Concrete instance of `offline_no_guard` at explicit inputs. -/
theorem offline_no_guard_witness :
    handleAnalysisRequest true "AIza-real"
      (String.mk (List.replicate 100 'a')) "en" =
      handleAnalysisRequest false "AIza-real"
        (String.mk (List.replicate 100 'a')) "en" ∧
    handleAnalysisRequest false "AIza-real"
      (String.mk (List.replicate 100 'a')) "en" =
      HandlerOutcome.remoteAttempt :=
  offline_no_guard true false "AIza-real"
    (String.mk (List.replicate 100 'a')) "en"
    (by decide) (by decide) (by decide)

/-! ## Claim C3 — placeholder credentials are not fatal -/

/-- C3 counterexample: with the credential equal to the known placeholder
marker `ABC123` — which the constructor's own test flags — `processTerms`
issues the remote call instead of failing with a configuration error. -/
theorem placeholder_key_cex :
    apiKeyWarned "ABC123" = true ∧
    processTerms "ABC123" (String.mk (List.replicate 100 'a')) "en" =
      HandlerOutcome.remoteAttempt := by
  constructor <;> decide

/-- C3 amended: only a missing (empty) credential aborts the attempt with
the configuration error before any remote call; every non-empty credential
— the placeholder value included, which is merely logged at construction —
lets the attempt proceed to the remote call. -/
theorem config_error_only_missing (apiKey termsText language : String) :
    (apiKey = "" →
      processTerms apiKey termsText language =
        HandlerOutcome.localError
          "Extension is not properly configured. Please contact support.") ∧
    (apiKey ≠ "" →
      processTerms apiKey termsText language =
        HandlerOutcome.remoteAttempt) := by
  constructor <;> intro h <;> simp [processTerms, h]

/-- Concrete instance of `config_error_only_missing`: the empty credential
fails locally, the placeholder credential proceeds to the remote call. -/
theorem config_error_only_missing_witness :
    processTerms "" "some terms text" "en" =
      HandlerOutcome.localError
        "Extension is not properly configured. Please contact support." ∧
    processTerms "ABC123" "some terms text" "en" =
      HandlerOutcome.remoteAttempt :=
  ⟨(config_error_only_missing "" "some terms text" "en").1 rfl,
   (config_error_only_missing "ABC123" "some terms text" "en").2 (by decide)⟩

end TermsAnalyzer
